import Mathlib

/-!
Verification development for the Georgia Community Resilience Index
repository.  The Python sources are shallowly embedded: pandas columns
become `List (Option ℚ)` (with `none` playing the role of a missing /
NaN cell where the code relies on NaN-propagation), IEEE special values
that the code can actually produce are made explicit in the `PVal` type,
strings are `String` / `List Char`, and fallible operations return
`Option` or `Except`.  Machine floats are modelled by exact rationals:
every concrete number appearing in the sources and in the claims is a
short decimal, so all stated equalities and bounds are exact in ℚ and a
fortiori hold to the floating tolerances mentioned in the spec.
-/

/-- Python `str.zfill` for unsigned strings (the FIPS codes handled by the
pipeline never carry a sign): left-pad with `'0'` up to width `w`. -/
def zfill (w : Nat) (s : String) : String :=
  if s.length < w then String.mk (List.replicate (w - s.length) '0') ++ s else s

/-- ASCII digit test, `[0-9]` in the regexes of `llm.py` / `a.py`. -/
def isDigitChar (c : Char) : Bool :=
  '0' ≤ c && c ≤ '9'

/-- Python regex `\s` restricted to the ASCII whitespace characters
(space, tab, newline, carriage return, vertical tab, form feed); the
query strings fed to the parser are plain ASCII text. -/
def pyIsSpace (c : Char) : Bool :=
  c = ' ' || c = '\t' || c = '\n' || c = '\r' || c = Char.ofNat 11 || c = Char.ofNat 12

/-- Numeric value of a list of ASCII digits, most significant first. -/
def natOfDigits (cs : List Char) : Nat :=
  cs.foldl (fun acc c => acc * 10 + (c.toNat - 48)) 0

/-- Value of a decimal token `d1`, `d1.d2` or `.d2` as an exact rational
(the value Python's `float` gives such literals, exactly). -/
def ratOfDecimal (intPart fracPart : List Char) : ℚ :=
  (natOfDigits intPart : ℚ) + (natOfDigits fracPart : ℚ) / (10 : ℚ) ^ fracPart.length

/-- `pd.to_numeric(·, errors='coerce')` on one CSV cell: a missing cell
stays missing, a plain (optionally signed) decimal literal is parsed, and
anything else coerces to NaN (`none`).  The CSVs this pipeline exchanges
hold only plain decimals, so scientific notation is out of scope. -/
def toNumericOpt : Option String → Option ℚ
  | none => none
  | some s =>
    let cs := s.data
    let (sign, body) := match cs with
      | '-' :: rest => ((-1 : ℚ), rest)
      | '+' :: rest => ((1 : ℚ), rest)
      | rest => ((1 : ℚ), rest)
    let d1 := body.takeWhile isDigitChar
    let r1 := body.dropWhile isDigitChar
    match r1 with
    | [] => if d1.isEmpty then none else some (sign * ratOfDecimal d1 [])
    | '.' :: r2 =>
      let d2 := r2.takeWhile isDigitChar
      if r2.dropWhile isDigitChar = [] then
        if d1.isEmpty && d2.isEmpty then none
        else some (sign * ratOfDecimal d1 d2)
      else none
    | _ => none

/-- Minimum of a pandas column, NaN-skipping like `Series.min()`:
missing entries are ignored, an all-missing column has no minimum. -/
def colMin : List (Option ℚ) → Option ℚ
  | [] => none
  | none :: xs => colMin xs
  | some v :: xs =>
    match colMin xs with
    | none => some v
    | some m => some (min v m)

/-- Maximum of a pandas column, NaN-skipping like `Series.max()`. -/
def colMax : List (Option ℚ) → Option ℚ
  | [] => none
  | none :: xs => colMax xs
  | some v :: xs =>
    match colMax xs with
    | none => some v
    | some m => some (max v m)

/-- Min-max normalization of one socioeconomic indicator column, from
`sev.py` lines 30-37: when `maximum > minimum` each cell is scaled (NaN
cells propagate), otherwise the whole output column is assigned the
scalar `0.0` (`df[f'norm_{metric}'] = 0.0`), missing cells included.
The comparison `maximum > minimum` is False when either side is NaN. -/
def sev_normalize (col : List (Option ℚ)) : List (Option ℚ) :=
  match colMax col, colMin col with
  | some maximum, some minimum =>
    if minimum < maximum then
      col.map (Option.map (fun x => (x - minimum) / (maximum - minimum)))
    else
      col.map (fun _ => some 0)
  | _, _ => col.map (fun _ => some 0)

/-- Min-max normalization of the uninsured-rate column, from
`healthcare_resilience.py` lines 29-34: identical scaling branch, but in
the degenerate case the raw column is copied unchanged
(`df['Normalized_Uninsured'] = df['uninsured_rate']`). -/
def health_normalize (col : List (Option ℚ)) : List (Option ℚ) :=
  match colMax col, colMin col with
  | some maximum, some minimum =>
    if minimum < maximum then
      col.map (Option.map (fun x => (x - minimum) / (maximum - minimum)))
    else
      col
  | _, _ => col

/-- IEEE-754 special values as produced by pandas/numpy float columns:
a finite value, the two infinities, or NaN (pandas' missing value for
float columns). -/
inductive PVal where
  | num (q : ℚ)
  | pinf
  | ninf
  | nan
deriving DecidableEq, Repr

/-- IEEE-754 division as performed by `Series.__truediv__` in
`healthcare_resilience.py` line 26: finite / 0 gives a signed infinity
(NaN for 0 / 0), never an exception and never a silent drop. -/
def pdiv : PVal → PVal → PVal
  | PVal.nan, _ => PVal.nan
  | _, PVal.nan => PVal.nan
  | PVal.num a, PVal.num b =>
    if b = 0 then
      if 0 < a then PVal.pinf else if a < 0 then PVal.ninf else PVal.nan
    else PVal.num (a / b)
  | PVal.num _, PVal.pinf => PVal.num 0
  | PVal.num _, PVal.ninf => PVal.num 0
  | PVal.pinf, PVal.num b => if 0 ≤ b then PVal.pinf else PVal.ninf
  | PVal.ninf, PVal.num b => if 0 ≤ b then PVal.ninf else PVal.pinf
  | PVal.pinf, _ => PVal.nan
  | PVal.ninf, _ => PVal.nan

/-- One row of `data/healthcare_uninsured_counts.csv` as loaded by
`healthcare_resilience.py`: the uninsured count and the total population
under 65 for one region. -/
structure HCRow where
  uninsured : PVal
  total : PVal
deriving DecidableEq, Repr

/-- The derived `uninsured_rate` column
(`df['Uninsured Population Under 65'] / df['Total Population Under 65']`,
`healthcare_resilience.py` line 26): elementwise IEEE division, one
output cell per input row. -/
def uninsured_rate_col (rows : List HCRow) : List PVal :=
  rows.map (fun r => pdiv r.uninsured r.total)

/-- One row of `data/socioeconomic_sev.csv` as read by `compute_CRI.py`
with `dtype=str` (after the `'State' → 'state'` rename): the key columns,
the display name, and the `Resilience_Socio` cell (missing cells are
`none`).  Further columns of that CSV are never touched downstream. -/
structure SocioRow where
  state : String
  county : String
  countyName : String
  resilienceSocio : Option String
deriving DecidableEq, Repr

/-- One row of `data/food_access_score.csv` restricted to the columns
`compute_CRI.py` selects for the merge. -/
structure FoodRow where
  state : String
  county : String
  resilienceFood : Option String
deriving DecidableEq, Repr

/-- One row of `data/healthcare_resilience.csv` restricted to the columns
`compute_CRI.py` selects (after the `StateFIPS`/`CountyFIPS` rename). -/
structure HealthRow where
  state : String
  county : String
  resilienceHealth : Option String
deriving DecidableEq, Repr

/-- Row shape of `merged_file` in `compute_CRI.py` after both merges,
before `pd.to_numeric`: the three resilience cells are still raw CSV
cells, with `none` for a cell made missing by a failed join. -/
structure MergedRow where
  state : String
  county : String
  countyName : String
  rSocioS : Option String
  rFoodS : Option String
  rHealthS : Option String
deriving DecidableEq, Repr

/-- Row of the canonical table `data/community_resilience_index.csv`
emitted by `compute_CRI.py` (columns as renamed at lines 74-83). -/
structure FinalRow where
  stateFips : String
  stateName : String
  countyFips : String
  countyName : String
  rSocio : Option ℚ
  rFood : Option ℚ
  rHealth : Option ℚ
  cri : Option ℚ
deriving DecidableEq, Repr

/-- The zero-padding loop of `compute_CRI.py` lines 36-38 applied to a
socioeconomic row. -/
def zfillSocio (r : SocioRow) : SocioRow :=
  { r with state := zfill 2 r.state, county := zfill 3 r.county }

/-- Zero-padding of a food row (`compute_CRI.py` lines 36-38). -/
def zfillFood (r : FoodRow) : FoodRow :=
  { r with state := zfill 2 r.state, county := zfill 3 r.county }

/-- Zero-padding of a healthcare row (`compute_CRI.py` lines 36-38). -/
def zfillHealth (r : HealthRow) : HealthRow :=
  { r with state := zfill 2 r.state, county := zfill 3 r.county }

/-- `socio_df.merge(food_df[...], on=['state','county'], how='left')`:
every left row is kept; a left row with no key match gets a missing
`Resilience_Food` cell, and one output row appears per matching right
row otherwise (pandas duplicates the left row on multiple hits). -/
def merge_food (socio : List SocioRow) (food : List FoodRow) : List MergedRow :=
  (socio.map (fun s =>
    let hits := food.filter (fun f => f.state = s.state && f.county = s.county)
    if hits.isEmpty then
      [⟨s.state, s.county, s.countyName, s.resilienceSocio, none, none⟩]
    else
      hits.map (fun f =>
        ⟨s.state, s.county, s.countyName, s.resilienceSocio, f.resilienceFood, none⟩))).flatten

/-- The second left merge of `compute_CRI.py` (lines 41-45), attaching
`Resilience_Health` to the already food-merged rows. -/
def merge_health (ms : List MergedRow) (health : List HealthRow) : List MergedRow :=
  (ms.map (fun m =>
    let hits := health.filter (fun h => h.state = m.state && h.county = m.county)
    if hits.isEmpty then
      [{ m with rHealthS := none }]
    else
      hits.map (fun h => { m with rHealthS := h.resilienceHealth }))).flatten

/-- Weight constant `w1` of `compute_CRI.py` line 52 (`w1 = w2 = w3 = 1/3`). -/
def w1 : ℚ := 1 / 3

/-- Weight constant `w2` of `compute_CRI.py` line 52. -/
def w2 : ℚ := 1 / 3

/-- Weight constant `w3` of `compute_CRI.py` line 52. -/
def w3 : ℚ := 1 / 3

/-- Scalar-times-column cell arithmetic with NaN propagation:
`w * NaN = NaN`, mirroring the pandas float semantics used at
`compute_CRI.py` lines 53-57. -/
def optMul (c : ℚ) : Option ℚ → Option ℚ :=
  Option.map (fun x => c * x)

/-- Cell addition with NaN propagation (`NaN + x = NaN`). -/
def optAdd : Option ℚ → Option ℚ → Option ℚ
  | some a, some b => some (a + b)
  | _, _ => none

/-- The CRI cell of one merged row, `compute_CRI.py` lines 52-57:
`w1 * Resilience_Socio + w2 * Resilience_Food + w3 * Resilience_Health`
over NaN-propagating float cells. -/
def criOf (s f h : Option ℚ) : Option ℚ :=
  optAdd (optAdd (optMul w1 s) (optMul w2 f)) (optMul w3 h)

/-- The whole `compute_CRI.py` batch: zero-pad the three stage outputs,
left-merge food then healthcare onto the socioeconomic base, coerce the
three resilience columns to numeric (`errors='coerce'`), compute the CRI
column, and emit the canonical table (with `state_name = 'Georgia'`). -/
def compute_cri_table (socio : List SocioRow) (food : List FoodRow)
    (health : List HealthRow) : List FinalRow :=
  let merged := merge_health
    (merge_food (socio.map zfillSocio) (food.map zfillFood))
    (health.map zfillHealth)
  merged.map (fun m =>
    let s := toNumericOpt m.rSocioS
    let f := toNumericOpt m.rFoodS
    let h := toNumericOpt m.rHealthS
    { stateFips := m.state, stateName := "Georgia", countyFips := m.county,
      countyName := m.countyName, rSocio := s, rFood := f, rHealth := h,
      cri := criOf s f h })

/-- Python `text.lower()` for the ASCII queries the chat box receives,
as the first step of `parse_cri_range` (`llm.py` line 103). -/
def lowerChars (s : String) : List Char :=
  s.data.map Char.toLower

/-- Consume an exact literal at the head of the input, or fail
(the literal parts `between`, `above`, `below`, `and`, `to` of the
regexes in `llm.py` lines 105-115). -/
def stripLit : List Char → List Char → Option (List Char)
  | [], cs => some cs
  | _, [] => none
  | l :: ls, c :: cs => if c = l then stripLit ls cs else none

/-- Greedy `\s*`: drop leading whitespace.  A number never begins with a
whitespace character, so the regex engine's backtracking over `\s*`
cannot produce any further match and greedy consumption is exact. -/
def dropSpaces (cs : List Char) : List Char :=
  cs.dropWhile pyIsSpace

/-- Match the capture group `([0-9]*\.?[0-9]+)` at the head of the input
and return its exact rational value together with the rest of the input.
Maximal munch is used; this agrees with Python's greedy backtracking
matcher for the three patterns of `parse_cri_range` because every
shorter candidate match of the group ends immediately before a digit or
a dot, and in each pattern the group is followed either by the end of
the pattern or by `\s*(?:and|to)`, which can never start with a digit or
a dot. -/
def numTokenQ (cs : List Char) : Option (ℚ × List Char) :=
  let d1 := cs.takeWhile isDigitChar
  let r1 := cs.dropWhile isDigitChar
  match r1 with
  | '.' :: r2 =>
    let d2 := r2.takeWhile isDigitChar
    if d2.isEmpty then
      if d1.isEmpty then none else some (ratOfDecimal d1 [], r1)
    else
      some (ratOfDecimal d1 d2, r2.dropWhile isDigitChar)
  | _ => if d1.isEmpty then none else some (ratOfDecimal d1 [], r1)

/-- The alternation `(?:and|to)`.  Its two branches begin with distinct
characters, so the regex engine's ordered choice is deterministic. -/
def stripAndTo (cs : List Char) : Option (List Char) :=
  match stripLit ("and".data) cs with
  | some r => some r
  | none => stripLit ("to".data) cs

/-- Match `between\s*([0-9]*\.?[0-9]+)\s*(?:and|to)\s*([0-9]*\.?[0-9]+)`
anchored at the head of the input, returning the two captured values. -/
def between_at (cs : List Char) : Option (ℚ × ℚ) :=
  match stripLit ("between".data) cs with
  | none => none
  | some r1 =>
    match numTokenQ (dropSpaces r1) with
    | none => none
    | some (x, r2) =>
      match stripAndTo (dropSpaces r2) with
      | none => none
      | some r3 =>
        match numTokenQ (dropSpaces r3) with
        | none => none
        | some (y, _) => some (x, y)

/-- Match `above\s*([0-9]*\.?[0-9]+)` anchored at the head. -/
def above_at (cs : List Char) : Option ℚ :=
  match stripLit ("above".data) cs with
  | none => none
  | some r1 =>
    match numTokenQ (dropSpaces r1) with
    | none => none
    | some (x, _) => some x

/-- Match `below\s*([0-9]*\.?[0-9]+)` anchored at the head. -/
def below_at (cs : List Char) : Option ℚ :=
  match stripLit ("below".data) cs with
  | none => none
  | some r1 =>
    match numTokenQ (dropSpaces r1) with
    | none => none
    | some (x, _) => some x

/-- `re.search` for an anchored matcher: try every start position from
the left and return the first (leftmost) success. -/
def searchFirst {α : Type} (f : List Char → Option α) : List Char → Option α
  | [] => f []
  | c :: cs =>
    match f (c :: cs) with
    | some r => some r
    | none => searchFirst f cs

/-- `re.search` of the `between` pattern over the lowercased text. -/
def search_between (cs : List Char) : Option (ℚ × ℚ) :=
  searchFirst between_at cs

/-- `re.search` of the `above` pattern over the lowercased text. -/
def search_above (cs : List Char) : Option ℚ :=
  searchFirst above_at cs

/-- `re.search` of the `below` pattern over the lowercased text. -/
def search_below (cs : List Char) : Option ℚ :=
  searchFirst below_at cs

/-- `parse_cri_range` from `llm.py` lines 96-116 (= `a.py` lines 93-114):
lowercase the text, try `between X and Y`, then `above X`, then
`below X`; the raised `ValueError` (the spec's `UnparsableQuery`) is
embedded as `none`. -/
def parse_cri_range (text : String) : Option (ℚ × ℚ) :=
  let t := lowerChars text
  match search_between t with
  | some (x, y) => some (x, y)
  | none =>
    match search_above t with
    | some x => some (x, 1)
    | none =>
      match search_below t with
      | some x => some (0, x)
      | none => none

/-- Round half to even (banker's rounding), the tie rule of
`numpy.round`, on an exact rational. -/
def roundHalfEven (x : ℚ) : ℤ :=
  let f := x.floor
  let r := x - (f : ℚ)
  if r < 1 / 2 then f
  else if 1 / 2 < r then f + 1
  else if f % 2 = 0 then f else f + 1

/-- `Series.round(4)` on one cell: round to 4 decimal places
(half-to-even at exact decimal ties; none of the theorems below sits on
a tie, so the binary-versus-decimal tie discrepancy of floats is moot). -/
def round4 (q : ℚ) : ℚ :=
  (roundHalfEven (q * 10000) : ℚ) / 10000

/-- One raw CSV row of `data/community_resilience_index.csv` as read by
`load_data` with `dtype=str` (`a.py` / `interactive_dashboard.py`). -/
structure RawRow where
  stateFips : String
  countyFips : String
  countyName : String
  socioStr : Option String
  foodStr : Option String
  healthStr : Option String
  criStr : Option String
deriving DecidableEq, Repr

/-- One prepared row of the dashboard DataFrame `cri_df`: zero-padded
keys, the concatenated `fips`, and the four numeric columns after
`pd.to_numeric(..., errors='coerce').round(4)`. -/
structure QRow where
  countyName : String
  state : String
  county : String
  fips : String
  socio : Option ℚ
  food : Option ℚ
  health : Option ℚ
  cri : Option ℚ
deriving DecidableEq, Repr

/-- Row preparation inside `load_data` (`a.py` lines 40-57,
`interactive_dashboard.py` lines 40-57): build the padded keys and
`fips`, then coerce and round each numeric column in place — the rounded
value replaces the raw one in the DataFrame. -/
def prepRow (r : RawRow) : QRow :=
  let st := zfill 2 r.stateFips
  let ct := zfill 3 r.countyFips
  { countyName := r.countyName, state := st, county := ct, fips := st ++ ct,
    socio := (toNumericOpt r.socioStr).map round4,
    food := (toNumericOpt r.foodStr).map round4,
    health := (toNumericOpt r.healthStr).map round4,
    cri := (toNumericOpt r.criStr).map round4 }

/-- `load_data` (data-frame part): prepare every row, then keep only
Georgia rows (`state == '13'`). -/
def load_data (raws : List RawRow) : List QRow :=
  (raws.map prepRow).filter (fun q => q.state = "13")

/-- The row test of `filter_cri` (`llm.py` lines 86-89): both
comparisons are False on a NaN CRI, so rows with a missing CRI are
dropped. -/
def inCriRange (lo hi : ℚ) (r : QRow) : Bool :=
  match r.cri with
  | some q => decide (lo ≤ q) && decide (q ≤ hi)
  | none => false

/-- Sort key used by `sort_values("Community Resilience Index (CRI)")`;
rows reaching the sort always carry a present CRI. -/
def criKey (r : QRow) : ℚ :=
  r.cri.getD 0

/-- Insert one row into a list already sorted by descending CRI.  The
source sorts with pandas' default `kind='quicksort'`, which fixes no
particular order among equal keys; this model fixes one concrete
descending order, and no theorem below depends on the order of ties. -/
def insertDesc (r : QRow) : List QRow → List QRow
  | [] => [r]
  | x :: xs => if criKey x < criKey r then r :: x :: xs else x :: insertDesc r xs

/-- Descending sort by CRI (insertion sort). -/
def sortDescByCri (l : List QRow) : List QRow :=
  l.foldr insertDesc []

/-- `filter_cri(lo, hi)` from `llm.py` lines 84-94 (= `a.py` lines
88-90): keep the rows with `lo ≤ CRI ≤ hi`, sorted by CRI descending. -/
def filter_cri (tbl : List QRow) (lo hi : ℚ) : List QRow :=
  sortDescByCri (tbl.filter (inCriRange lo hi))

/-- The `geocode` object of one NOAA alert feature: its `SAME` entry may
be absent (`.get("SAME", [])`). -/
structure Geocode where
  same : Option (List String)
deriving DecidableEq, Repr

/-- One feature of the NOAA active-alerts payload: `properties.geocode`
may be absent or JSON `null`, both of which
`feat["properties"].get("geocode",{}) or {}` turn into the empty dict
(collapsed here into `none`). -/
structure AlertFeature where
  geocode : Option Geocode
deriving DecidableEq, Repr

/-- The list of SAME codes the loop of `fetch_noaa_warnings` iterates
for one feature. -/
def sameOf (f : AlertFeature) : List String :=
  match f.geocode with
  | none => []
  | some g =>
    match g.same with
    | none => []
    | some l => l

/-- The acceptance test of `fetch_noaa_warnings` (`a.py` line 128,
`interactive_dashboard.py` line 124): `len(code) == 5 and
code.startswith("13")` — a 5-character code starting with the Georgia
FIPS code `13`. -/
def isGeorgiaSame (c : String) : Bool :=
  c.length = 5 && ("13".data.isPrefixOf c.data)

/-- `fetch_noaa_warnings` (`a.py` lines 117-130,
`interactive_dashboard.py` lines 113-126), extraction part: walk every
feature's SAME codes, keep those passing the format test, and return
them as a set (duplicates removed; the network fetch and its
`FeedUnavailable` path are outside this extraction). -/
def fetch_noaa_warnings (feats : List AlertFeature) : List String :=
  (((feats.map sameOf).flatten).filter isGeorgiaSame).dedup

/-- Failure of `compute_res_clusters`: scikit-learn's
`KMeans.fit` raises `ValueError` (the spec's `InsufficientData`) when
the sample count is below `n_clusters`. -/
inductive ClusterErr where
  | insufficientData
deriving DecidableEq, Repr

/-- Squared Euclidean distance on the three resilience features. -/
def sqDist3 (a b : ℚ × ℚ × ℚ) : ℚ :=
  (a.1 - b.1) ^ 2 + (a.2.1 - b.2.1) ^ 2 + (a.2.2 - b.2.2) ^ 2

/-- Index of the nearest centroid (first index on ties, as
scikit-learn's assignment step takes the first minimiser). -/
def nearestIdx (cents : List (ℚ × ℚ × ℚ)) (x : ℚ × ℚ × ℚ) : Nat :=
  (cents.foldl
    (fun acc c =>
      let (best, bestD, i) := acc
      if sqDist3 x c < bestD then (i, sqDist3 x c, i + 1) else (best, bestD, i + 1))
    (0, sqDist3 x (cents.headD (0, 0, 0)), 0)).1

/-- Assignment step of Lloyd's iteration. -/
def assignAll (rows : List (ℚ × ℚ × ℚ)) (cents : List (ℚ × ℚ × ℚ)) : List Nat :=
  rows.map (nearestIdx cents)

/-- Mean of a non-empty cluster; an empty cluster keeps its previous
centroid (abstracting scikit-learn's empty-cluster relocation, which the
claims never touch). -/
def centroidOf (pts : List (ℚ × ℚ × ℚ)) (old : ℚ × ℚ × ℚ) : ℚ × ℚ × ℚ :=
  match pts with
  | [] => old
  | _ =>
    let n : ℚ := pts.length
    ((pts.map (·.1)).sum / n, (pts.map (·.2.1)).sum / n, (pts.map (·.2.2)).sum / n)

/-- Update step of Lloyd's iteration. -/
def updateCentroids (rows : List (ℚ × ℚ × ℚ)) (labels : List Nat)
    (cents : List (ℚ × ℚ × ℚ)) : List (ℚ × ℚ × ℚ) :=
  cents.mapIdx (fun j c =>
    centroidOf ((rows.zip labels).filterMap
      (fun p => if p.2 = j then some p.1 else none)) c)

/-- Lloyd's iteration with an iteration cap (`max_iter=300` in
scikit-learn), stopping early once the centroids are stable. -/
def lloyd : Nat → List (ℚ × ℚ × ℚ) → List (ℚ × ℚ × ℚ) →
    List Nat × List (ℚ × ℚ × ℚ)
  | 0, rows, cents => (assignAll rows cents, cents)
  | n + 1, rows, cents =>
    let labels := assignAll rows cents
    let cents2 := updateCentroids rows labels cents
    if cents2 = cents then (labels, cents)
    else lloyd n rows cents2

/-- `compute_res_clusters` (`interactive_dashboard.py` lines 128-141):
cluster the rows on the three resilience sub-scores (the CRI column is
not among the features) with `KMeans(n_clusters, random_state=0)`.
scikit-learn validates `n_samples >= n_clusters` before fitting and
raises `ValueError` otherwise; the seeded k-means++ start is abstracted
to a deterministic start from the first `k` rows, which no theorem
below inspects. -/
def compute_res_clusters (rows : List (ℚ × ℚ × ℚ)) (k : Nat) :
    Except ClusterErr (List Nat × List (ℚ × ℚ × ℚ)) :=
  if rows.length < k then Except.error ClusterErr.insufficientData
  else Except.ok (lloyd 300 rows (rows.take k))

theorem colMin_allEq (v : ℚ) (col : List (Option ℚ))
    (h : ∀ x ∈ col, x = none ∨ x = some v) :
    colMin col = none ∨ colMin col = some v := by
  induction col with
  | nil => exact Or.inl rfl
  | cons a xs ih =>
    have hxs : ∀ x ∈ xs, x = none ∨ x = some v :=
      fun x hx => h x (List.mem_cons_of_mem a hx)
    rcases h a (List.mem_cons_self a xs) with ha | ha
    · subst ha
      simpa [colMin] using ih hxs
    · subst ha
      rcases ih hxs with h0 | h0 <;> simp [colMin, h0]

theorem colMax_allEq (v : ℚ) (col : List (Option ℚ))
    (h : ∀ x ∈ col, x = none ∨ x = some v) :
    colMax col = none ∨ colMax col = some v := by
  induction col with
  | nil => exact Or.inl rfl
  | cons a xs ih =>
    have hxs : ∀ x ∈ xs, x = none ∨ x = some v :=
      fun x hx => h x (List.mem_cons_of_mem a hx)
    rcases h a (List.mem_cons_self a xs) with ha | ha
    · subst ha
      simpa [colMax] using ih hxs
    · subst ha
      rcases ih hxs with h0 | h0 <;> simp [colMax, h0]

/-- C2 counterexample: the claim asserts that a constant column passes
through every normalization site unchanged, but at the socioeconomic
sites (`sev.py` lines 30-37) the degenerate branch assigns the scalar
`0.0` to the whole normalized column: on the constant raw column
`[5, 5]` the output is `[0, 0]`, not the raw column. -/
theorem C2_sev_constant_column_not_raw :
    sev_normalize [some 5, some 5] = [some 0, some 0] ∧
    sev_normalize [some 5, some 5] ≠ [some 5, some 5] := by
  constructor
  · rfl
  · decide

/-- C2 (amended): for a column whose non-missing values are all equal,
the degenerate branch is taken at every site; the three socioeconomic
sites then emit the constant-`0.0` column (`sev.py` line 37) while the
healthcare site returns the raw column unchanged
(`healthcare_resilience.py` line 34) — in both cases no division by
zero (hence no NaN/Inf) is performed. -/
theorem C2_degenerate_fallback (col : List (Option ℚ)) (v : ℚ)
    (h : ∀ x ∈ col, x = none ∨ x = some v) :
    sev_normalize col = col.map (fun _ => some 0) ∧
    health_normalize col = col := by
  rcases colMax_allEq v col h with hM | hM <;>
    rcases colMin_allEq v col h with hm | hm <;>
      simp [sev_normalize, health_normalize, hM, hm]

/-- Witness for `C2_degenerate_fallback` on the concrete constant
column `[some 5, none, some 5]`. -/
theorem C2_degenerate_fallback_witness :
    sev_normalize [some 5, none, some 5] = [some 0, some 0, some 0] ∧
    health_normalize [some 5, none, some 5] = [some 5, none, some 5] :=
  C2_degenerate_fallback [some 5, none, some 5] 5 (by decide)

/-- C8 counterexample: the claim says a region with zero total
population gets a missing (NaN) rate; the IEEE division at
`healthcare_resilience.py` line 26 actually yields +infinity for a
positive uninsured count over a zero total. -/
theorem C8_zero_total_gives_inf_not_missing :
    uninsured_rate_col [⟨PVal.num 3, PVal.num 0⟩] = [PVal.pinf] ∧
    PVal.pinf ≠ PVal.nan := by
  constructor
  · decide
  · decide

/-- C8 (amended): the division never drops a row or aborts the batch
(the output column has one cell per input row), and for a region with
zero total the rate cell is +infinity when the uninsured count is
positive, -infinity when negative, NaN only when the count is also
zero — and never the finite value 0. -/
theorem C8_zero_total_row_kept (rows : List HCRow) :
    (uninsured_rate_col rows).length = rows.length ∧
    ∀ (i : Fin rows.length) (u : ℚ),
      (rows.get i).total = PVal.num 0 → (rows.get i).uninsured = PVal.num u →
      (uninsured_rate_col rows).get ⟨i.val, by simp [uninsured_rate_col]⟩
          = (if 0 < u then PVal.pinf else if u < 0 then PVal.ninf else PVal.nan) ∧
      (uninsured_rate_col rows).get ⟨i.val, by simp [uninsured_rate_col]⟩
          ≠ PVal.num 0 := by
  constructor
  · simp [uninsured_rate_col]
  · intro i u ht hu
    have hget : (uninsured_rate_col rows).get
        ⟨i.val, by simp [uninsured_rate_col]⟩
        = pdiv (rows.get i).uninsured (rows.get i).total := by
      simp [uninsured_rate_col, List.getElem_map]
    rw [hget, ht, hu]
    constructor
    · simp [pdiv]
    · simp only [pdiv]
      split_ifs <;> simp

/-- Witness for `C8_zero_total_row_kept` at the one-row batch with
uninsured count 3 and total population 0. -/
theorem C8_zero_total_row_kept_witness :
    (uninsured_rate_col [⟨PVal.num 3, PVal.num 0⟩]).length
        = ([⟨PVal.num 3, PVal.num 0⟩] : List HCRow).length ∧
    (uninsured_rate_col [⟨PVal.num 3, PVal.num 0⟩]).get ⟨0, by decide⟩
        ≠ PVal.num 0 := by
  have h := C8_zero_total_row_kept [⟨PVal.num 3, PVal.num 0⟩]
  exact ⟨h.1, (h.2 ⟨0, by decide⟩ 3 rfl rfl).2⟩

theorem optAdd_none_right (x : Option ℚ) : optAdd x none = none := by
  cases x <;> rfl

theorem optAdd_none_left (x : Option ℚ) : optAdd none x = none := by
  cases x <;> rfl

theorem mem_compute_cri_cri (socio : List SocioRow) (food : List FoodRow)
    (health : List HealthRow) (row : FinalRow)
    (h : row ∈ compute_cri_table socio food health) :
    row.cri = criOf row.rSocio row.rFood row.rHealth := by
  simp only [compute_cri_table, List.mem_map] at h
  obtain ⟨m, _, rfl⟩ := h
  rfl

theorem mem_merge_food_key (socio : List SocioRow) (food : List FoodRow)
    (row : MergedRow) (h : row ∈ merge_food socio food) :
    ∃ s ∈ socio, row.state = s.state ∧ row.county = s.county := by
  simp only [merge_food, List.mem_flatten, List.mem_map] at h
  obtain ⟨l, ⟨s, hs, rfl⟩, hrl⟩ := h
  refine ⟨s, hs, ?_⟩
  by_cases he : (food.filter (fun f => f.state = s.state && f.county = s.county)).isEmpty
  · rw [if_pos he] at hrl
    simp only [List.mem_singleton] at hrl
    subst hrl
    exact ⟨rfl, rfl⟩
  · rw [if_neg he] at hrl
    simp only [List.mem_map] at hrl
    obtain ⟨f, _, rfl⟩ := hrl
    exact ⟨rfl, rfl⟩

theorem mem_merge_health_key (ms : List MergedRow) (health : List HealthRow)
    (row : MergedRow) (h : row ∈ merge_health ms health) :
    ∃ m ∈ ms, row.state = m.state ∧ row.county = m.county := by
  simp only [merge_health, List.mem_flatten, List.mem_map] at h
  obtain ⟨l, ⟨m, hm, rfl⟩, hrl⟩ := h
  refine ⟨m, hm, ?_⟩
  by_cases he : (health.filter (fun f => f.state = m.state && f.county = m.county)).isEmpty
  · rw [if_pos he] at hrl
    simp only [List.mem_singleton] at hrl
    subst hrl
    exact ⟨rfl, rfl⟩
  · rw [if_neg he] at hrl
    simp only [List.mem_map] at hrl
    obtain ⟨f, _, rfl⟩ := hrl
    exact ⟨rfl, rfl⟩

theorem mem_compute_cri_key (socio : List SocioRow) (food : List FoodRow)
    (health : List HealthRow) (row : FinalRow)
    (h : row ∈ compute_cri_table socio food health) :
    ∃ s ∈ socio, row.stateFips = zfill 2 s.state ∧ row.countyFips = zfill 3 s.county := by
  simp only [compute_cri_table, List.mem_map] at h
  obtain ⟨m, hm, rfl⟩ := h
  obtain ⟨m2, hm2, hst2, hct2⟩ := mem_merge_health_key _ _ _ hm
  obtain ⟨sz, hsz, hst1, hct1⟩ := mem_merge_food_key _ _ _ hm2
  simp only [List.mem_map] at hsz
  obtain ⟨s, hs, rfl⟩ := hsz
  exact ⟨s, hs, by simp [hst2, hst1, zfillSocio], by simp [hct2, hct1, zfillSocio]⟩

/-- C1: for every row of the canonical table whose three sub-scores are
present and lie in [0,1], the CRI cell is exactly
`w1*socio + w2*food + w3*health` with the named weights `w1 = w2 = w3 =
1/3` of `compute_CRI.py` line 52, which equals the equal-weighted mean
`(socio + food + health) / 3` exactly (hence within tolerance 1e-9),
and lies in [0,1]; and whenever any sub-score failed to join (is
missing), the emitted CRI is missing — never a substituted zero. -/
theorem C1_cri_weighted_mean (socio : List SocioRow) (food : List FoodRow)
    (health : List HealthRow) (row : FinalRow)
    (hrow : row ∈ compute_cri_table socio food health) :
    (∀ a b c : ℚ, row.rSocio = some a → row.rFood = some b → row.rHealth = some c →
      0 ≤ a → a ≤ 1 → 0 ≤ b → b ≤ 1 → 0 ≤ c → c ≤ 1 →
      row.cri = some (w1 * a + w2 * b + w3 * c) ∧
      w1 * a + w2 * b + w3 * c = (a + b + c) / 3 ∧
      |w1 * a + w2 * b + w3 * c - (a + b + c) / 3| ≤ 1 / 1000000000 ∧
      0 ≤ (a + b + c) / 3 ∧ (a + b + c) / 3 ≤ 1) ∧
    ((row.rSocio = none ∨ row.rFood = none ∨ row.rHealth = none) →
      row.cri = none) := by
  have hc := mem_compute_cri_cri socio food health row hrow
  constructor
  · intro a b c ha hb hch h0a h1a h0b h1b h0c h1c
    have heq : w1 * a + w2 * b + w3 * c = (a + b + c) / 3 := by
      simp only [w1, w2, w3]
      ring
    refine ⟨?_, heq, ?_, ?_, ?_⟩
    · rw [hc, ha, hb, hch]
      rfl
    · rw [heq]
      simp
    · positivity
    · linarith
  · intro h
    rw [hc]
    rcases h with h | h | h <;>
      simp [criOf, optMul, h, optAdd_none_left, optAdd_none_right, optAdd]

/-- Witness for `C1_cri_weighted_mean` on a concrete three-stage batch
whose single region has sub-scores 0.8, 0.6, 0.7: the canonical CRI is
exactly 0.7. -/
theorem C1_cri_weighted_mean_witness :
    (⟨"13", "Georgia", "057", "Appling",
        some (4/5), some (3/5), some (7/10), some (7/10)⟩ : FinalRow).cri
        = some (w1 * (4/5) + w2 * (3/5) + w3 * (7/10)) ∧
    (w1 * (4/5) + w2 * (3/5) + w3 * (7/10) : ℚ) = (4/5 + 3/5 + 7/10) / 3 ∧
    (0 : ℚ) ≤ (4/5 + 3/5 + 7/10) / 3 ∧ ((4/5 + 3/5 + 7/10) : ℚ) / 3 ≤ 1 := by
  have h := (C1_cri_weighted_mean
    [⟨"13", "057", "Appling", some "0.8"⟩]
    [⟨"13", "057", some "0.6"⟩]
    [⟨"13", "057", some "0.7"⟩]
    ⟨"13", "Georgia", "057", "Appling",
      some (4/5), some (3/5), some (7/10), some (7/10)⟩
    (by with_unfolding_all decide)).1 (4/5) (3/5) (7/10) rfl rfl rfl
    (by norm_num) (by norm_num) (by norm_num) (by norm_num) (by norm_num) (by norm_num)
  exact ⟨h.1, h.2.1, h.2.2.2.1, h.2.2.2.2⟩

/-- C3: the canonical table is anchored on the socioeconomic stage: a
region key absent from the (zero-padded) socioeconomic stage output
never appears in the output of `compute_CRI.py`, no matter what the
food and healthcare stages contain (the two merges at lines 41-45 are
left joins based on `socio_df`). -/
theorem C3_join_anchored_on_socio (socio : List SocioRow) (food : List FoodRow)
    (health : List HealthRow) (st ct : String)
    (habs : ∀ s ∈ socio, ¬(zfill 2 s.state = st ∧ zfill 3 s.county = ct)) :
    ∀ row ∈ compute_cri_table socio food health,
      ¬(row.stateFips = st ∧ row.countyFips = ct) := by
  intro row hrow ⟨hst, hct⟩
  obtain ⟨s, hs, hks, hkc⟩ := mem_compute_cri_key socio food health row hrow
  exact habs s hs ⟨by rw [← hks, hst], by rw [← hkc, hct]⟩

/-- Witness for `C3_join_anchored_on_socio`: county 058 is present only
in the food stage, and the canonical row produced for the single
socioeconomic region 057 indeed does not carry key (13, 058). -/
theorem C3_join_anchored_on_socio_witness :
    ¬((⟨"13", "Georgia", "057", "Appling", some (4/5), none, none, none⟩ :
        FinalRow).stateFips = "13" ∧
      (⟨"13", "Georgia", "057", "Appling", some (4/5), none, none, none⟩ :
        FinalRow).countyFips = "058") :=
  C3_join_anchored_on_socio
    [⟨"13", "057", "Appling", some "0.8"⟩]
    [⟨"13", "058", some "0.5"⟩]
    [] "13" "058"
    (by decide)
    ⟨"13", "Georgia", "057", "Appling", some (4/5), none, none, none⟩
    (by with_unfolding_all decide)

/-- C5: the range-phrase parser lowercases its input and tries exactly
the three patterns of `llm.py` lines 105-115 in priority order —
`between X and/to Y`, then `above X`, then `below X` — with the first
match winning; it fails (the `ValueError`, i.e. `UnparsableQuery`) if
and only if none of the three patterns matches anywhere in the text;
and the four literal cases of the claim evaluate as stated. -/
theorem C5_parser_priority_and_literals :
    (∀ t : String, parse_cri_range t = none ↔
        search_between (lowerChars t) = none ∧ search_above (lowerChars t) = none ∧
        search_below (lowerChars t) = none) ∧
    (∀ t p, search_between (lowerChars t) = some p → parse_cri_range t = some p) ∧
    (∀ t x, search_between (lowerChars t) = none → search_above (lowerChars t) = some x →
        parse_cri_range t = some (x, 1)) ∧
    (∀ t x, search_between (lowerChars t) = none → search_above (lowerChars t) = none →
        search_below (lowerChars t) = some x → parse_cri_range t = some (0, x)) ∧
    parse_cri_range "above 0.7" = some (7/10, 1) ∧
    parse_cri_range "below 0.3" = some (0, 3/10) ∧
    parse_cri_range "between 0.2 and 0.6" = some (1/5, 3/5) ∧
    parse_cri_range "counties that are nice" = none := by
  refine ⟨?_, ?_, ?_, ?_, ?_, ?_, ?_, ?_⟩
  · intro t
    rcases hb : search_between (lowerChars t) with _ | ⟨x, y⟩ <;>
      rcases ha : search_above (lowerChars t) with _ | x1 <;>
        rcases hl : search_below (lowerChars t) with _ | x2 <;>
          simp [parse_cri_range, hb, ha, hl]
  · intro t p hp
    obtain ⟨x, y⟩ := p
    simp [parse_cri_range, hp]
  · intro t x hb ha
    simp [parse_cri_range, hb, ha]
  · intro t x hb ha hl
    simp [parse_cri_range, hb, ha, hl]
  · with_unfolding_all decide
  · with_unfolding_all decide
  · with_unfolding_all decide
  · with_unfolding_all decide

/-- Witness for `C5_parser_priority_and_literals`: the `between … to …`
variant on a concrete query. -/
theorem C5_parser_priority_and_literals_witness :
    parse_cri_range "between 0.4 to 0.8" = some (2/5, 4/5) :=
  C5_parser_priority_and_literals.2.1 "between 0.4 to 0.8" (2/5, 4/5)
    (by with_unfolding_all decide)

theorem mem_insertDesc (a r : QRow) (l : List QRow) :
    a ∈ insertDesc r l ↔ a = r ∨ a ∈ l := by
  induction l with
  | nil => simp [insertDesc]
  | cons x xs ih =>
    simp only [insertDesc]
    by_cases h : criKey x < criKey r
    · simp [h]
    · simp [h, ih, List.mem_cons]
      tauto

theorem mem_sortDescByCri (a : QRow) (l : List QRow) :
    a ∈ sortDescByCri l ↔ a ∈ l := by
  induction l with
  | nil => simp [sortDescByCri]
  | cons x xs ih =>
    simp only [sortDescByCri, List.foldr_cons] at ih ⊢
    simp [mem_insertDesc, ih]

/-- C10: the parser validates nothing about the extracted bounds — it
happily returns an inverted pair (`between 0.9 and 0.1` gives
(0.9, 0.1)) and bounds outside [0,1] (`above 5` gives (5.0, 1.0)) —
and `filter_cri` on any inverted pair returns the empty sequence
without raising. -/
theorem C10_parser_no_bounds_validation :
    parse_cri_range "between 0.9 and 0.1" = some (9/10, 1/10) ∧
    ¬((9:ℚ)/10 ≤ 1/10) ∧
    parse_cri_range "above 5" = some (5, 1) ∧
    ¬((5:ℚ) ≤ 1) ∧
    (∀ tbl lo hi, hi < lo → filter_cri tbl lo hi = []) := by
  refine ⟨by with_unfolding_all decide, by norm_num, by with_unfolding_all decide,
    by norm_num, ?_⟩
  intro tbl lo hi hlt
  have hf : tbl.filter (inCriRange lo hi) = [] := by
    rw [List.filter_eq_nil_iff]
    intro r _
    cases hcri : r.cri with
    | none => simp [inCriRange, hcri]
    | some q =>
      simp only [inCriRange, hcri, Bool.and_eq_true, decide_eq_true_eq, not_and]
      intro h1 h2
      linarith
  rw [filter_cri, hf]
  rfl

/-- Witness for `C10_parser_no_bounds_validation`: the inverted pair
(0.9, 0.1) filters a one-row table to the empty sequence. -/
theorem C10_parser_no_bounds_validation_witness :
    filter_cri [⟨"Appling", "13", "057", "13057",
        some (1/2), some (1/2), some (1/2), some (1/2)⟩] (9/10) (1/10) = [] :=
  C10_parser_no_bounds_validation.2.2.2.2
    [⟨"Appling", "13", "057", "13057", some (1/2), some (1/2), some (1/2), some (1/2)⟩]
    (9/10) (1/10) (by norm_num)

theorem lloyd_lengths (rows : List (ℚ × ℚ × ℚ)) :
    ∀ (fuel : Nat) (cents : List (ℚ × ℚ × ℚ)),
      (lloyd fuel rows cents).1.length = rows.length ∧
      (lloyd fuel rows cents).2.length = cents.length := by
  intro fuel
  induction fuel with
  | zero => intro cents; exact ⟨by simp [lloyd, assignAll], rfl⟩
  | succ n ih =>
    intro cents
    simp only [lloyd]
    by_cases h : updateCentroids rows (assignAll rows cents) cents = cents
    · rw [if_pos h]
      exact ⟨by simp [assignAll], rfl⟩
    · rw [if_neg h]
      refine ⟨(ih _).1, ?_⟩
      rw [(ih _).2]
      simp [updateCentroids]

/-- C6: clustering a table with fewer (distinct, one row per region)
regions than `k` fails with the `InsufficientData` error (scikit-learn's
`n_samples >= n_clusters` validation raising `ValueError`), and never
silently returns a result; with enough regions it returns one label per
region and exactly `k` centroids. -/
theorem C6_insufficient_data (rows : List (ℚ × ℚ × ℚ)) (k : Nat) :
    (rows.length < k →
      compute_res_clusters rows k = Except.error ClusterErr.insufficientData) ∧
    (k ≤ rows.length →
      ∃ labels cents, compute_res_clusters rows k = Except.ok (labels, cents) ∧
        labels.length = rows.length ∧ cents.length = k) := by
  constructor
  · intro h
    simp [compute_res_clusters, h]
  · intro h
    have hnot : ¬ rows.length < k := not_lt.mpr h
    refine ⟨(lloyd 300 rows (rows.take k)).1, (lloyd 300 rows (rows.take k)).2, ?_, ?_, ?_⟩
    · simp [compute_res_clusters, hnot]
    · exact (lloyd_lengths rows 300 _).1
    · rw [(lloyd_lengths rows 300 _).2]
      rw [List.length_take]
      omega

/-- Witness for `C6_insufficient_data`: two regions, `k = 4`. -/
theorem C6_insufficient_data_witness :
    compute_res_clusters [(0, 0, 0), (1, 1, 1)] 4
        = Except.error ClusterErr.insufficientData :=
  (C6_insufficient_data [(0, 0, 0), (1, 1, 1)] 4).1 (by decide)

/-- C7: every identifier the alert overlay returns is a 5-character
code carrying the Georgia jurisdiction code `13` as its first two
characters, and a SAME code failing that format is skipped — absent
from the result — rather than raising (the extraction is total). -/
theorem C7_alert_code_format (feats : List AlertFeature) :
    (∀ c ∈ fetch_noaa_warnings feats,
      c.length = 5 ∧ "13".data.isPrefixOf c.data = true) ∧
    (∀ f ∈ feats, ∀ c ∈ sameOf f,
      ¬(c.length = 5 ∧ "13".data.isPrefixOf c.data = true) →
        c ∉ fetch_noaa_warnings feats) := by
  have hmain : ∀ c ∈ fetch_noaa_warnings feats,
      c.length = 5 ∧ "13".data.isPrefixOf c.data = true := by
    intro c hc
    simp only [fetch_noaa_warnings, List.mem_dedup, List.mem_filter] at hc
    have h2 := hc.2
    simp only [isGeorgiaSame, Bool.and_eq_true, decide_eq_true_eq] at h2
    exact h2
  exact ⟨hmain, fun f _ c _ hbad hc => hbad (hmain c hc)⟩

/-- Witness for `C7_alert_code_format` on a concrete payload carrying
one well-formed SAME code and two malformed ones. -/
theorem C7_alert_code_format_witness :
    (("13057" : String).length = 5 ∧ "13".data.isPrefixOf "13057".data = true) ∧
    "0570" ∉ fetch_noaa_warnings [⟨some ⟨some ["13057", "0570", "990"]⟩⟩] := by
  have h := C7_alert_code_format [⟨some ⟨some ["13057", "0570", "990"]⟩⟩]
  exact ⟨h.1 "13057" (by decide),
    h.2 ⟨some ⟨some ["13057", "0570", "990"]⟩⟩ (by decide) "0570" (by decide) (by decide)⟩

set_option maxRecDepth 8000 in
/-- C9 counterexample: the claim says full-precision values are
retained and used for computation, the rounding being display-only.
In `load_data` the numeric columns are rounded to 4 decimals in place:
loading a region whose raw CRI is 0.11119 stores 0.1112, and
`filter_cri` over the loaded table admits the region for the query
range [0.1112, 0.2] even though the full-precision value 0.11119 lies
outside that range — the filter computes on the rounded value. -/
theorem C9_rounded_values_used_for_computation :
    ((load_data [⟨"13", "057", "Test",
        some "0.5", some "0.5", some "0.5", some "0.11119"⟩]).map (fun r => r.cri))
        = [some (1112/10000)] ∧
    ((1112:ℚ)/10000 ≠ (11119:ℚ)/100000) ∧
    (filter_cri (load_data [⟨"13", "057", "Test",
        some "0.5", some "0.5", some "0.5", some "0.11119"⟩])
        (1112/10000) (2/10)).map (fun r => r.countyName) = ["Test"] ∧
    ¬((1112:ℚ)/10000 ≤ 11119/100000 ∧ (11119:ℚ)/100000 ≤ 2/10) := by
  refine ⟨by with_unfolding_all decide, by norm_num, by with_unfolding_all decide, ?_⟩
  intro ⟨h1, _⟩
  norm_num at h1

/-- C9 (amended): `load_data` rounds each numeric column to 4 decimal
places once, at load; the stored (hence displayed) values are these
rounded ones, and the query operations compute on them — `filter_cri`
admits exactly the rows whose stored, rounded CRI lies in the queried
range.  Full precision is not retained anywhere. -/
theorem C9_rounding_at_load (raws : List RawRow) :
    ((load_data raws).map (fun r => r.cri))
        = ((raws.filter (fun r => zfill 2 r.stateFips = "13")).map
            (fun r => (toNumericOpt r.criStr).map round4)) ∧
    (∀ lo hi r, r ∈ filter_cri (load_data raws) lo hi →
      ∃ q, r.cri = some q ∧ lo ≤ q ∧ q ≤ hi) := by
  constructor
  · induction raws with
    | nil => rfl
    | cons x xs ih =>
      by_cases h : zfill 2 x.stateFips = "13"
      · simp only [load_data, List.map_cons, List.filter_cons] at ih ⊢
        have hx : ((prepRow x).state = "13") = True := by
          simp [prepRow, h]
        simp [hx, h, ih, prepRow]
      · simp only [load_data, List.map_cons, List.filter_cons] at ih ⊢
        have hx : ((prepRow x).state = "13") = False := by
          simp [prepRow, h]
        simp [hx, h, ih]
  · intro lo hi r hr
    rw [filter_cri, mem_sortDescByCri, List.mem_filter] at hr
    have h2 := hr.2
    cases hcri : r.cri with
    | none => rw [inCriRange, hcri] at h2; exact absurd h2 (by simp)
    | some q =>
      rw [inCriRange, hcri] at h2
      simp only [Bool.and_eq_true, decide_eq_true_eq] at h2
      exact ⟨q, rfl, h2.1, h2.2⟩

set_option maxRecDepth 8000 in
/-- Witness for `C9_rounding_at_load`: the loaded row of the
counterexample region is admitted by `filter_cri` with its stored,
rounded CRI inside the queried range. -/
theorem C9_rounding_at_load_witness :
    ∃ q, (⟨"Test", "13", "057", "13057",
        some (1/2), some (1/2), some (1/2), some (1112/10000)⟩ : QRow).cri = some q ∧
      (1112:ℚ)/10000 ≤ q ∧ q ≤ (2:ℚ)/10 :=
  (C9_rounding_at_load
    [⟨"13", "057", "Test", some "0.5", some "0.5", some "0.5", some "0.11119"⟩]).2
    (1112/10000) (2/10)
    ⟨"Test", "13", "057", "13057", some (1/2), some (1/2), some (1/2), some (1112/10000)⟩
    (by with_unfolding_all decide)
